import Mathlib

/-!
Shallow embedding of the `auth_python` repository, covering the database
session manager (`app/config/database.py`), the loguru-based logger
configuration (`app/utils/logger/logger_config.py`) and the request
instrumentation middleware (`app/utils/logger/middleware.py`), together
with theorems checking the natural-language specification against it.
-/

set_option autoImplicit false

namespace AuthPython

/-! ## Python-value modelling -/

/-- A Python exception, modelled by its type name and its `str(e)` rendering.
Re-raising "the original exception object" is modelled as returning an equal
`PyExc` value. -/
structure PyExc where
  ty : String
  msg : String
  deriving DecidableEq, Repr

/-! ## `app/config/database.py` : `DatabaseManager` -/

/-- State of a `DatabaseManager` instance (`database.py` lines 18-24).
`engine`, `sessionFactory` and `declBase` model the `_engine`,
`_session_factory` and `_base` attributes: `none` is Python `None`, and a
constructed object is identified by the generation counter current when it
was built, so that "returns the already-constructed engine" is expressible.
`initCount` (how many times the engine/factory construction in
`_initialize` actually ran) and `disposeCount` (how many `engine.dispose()`
calls happened) are ghost observers; they correspond to no Python attribute
and are read by no modelled operation. -/
structure DBManager where
  engine : Option Nat
  sessionFactory : Option Nat
  declBase : Option Nat
  isInitialized : Bool
  initCount : Nat
  disposeCount : Nat
  deriving DecidableEq, Repr

/-- `DatabaseManager.__init__`: everything `None` / `False`. -/
def DBManager.new : DBManager :=
  { engine := none, sessionFactory := none, declBase := none,
    isInitialized := false, initCount := 0, disposeCount := 0 }

/-- `self._connection_retry_attempts = 3` (`database.py` line 23). -/
def connectionRetryAttempts : Nat := 3

/-- The retry loop of `_test_connection` (`database.py` lines 170-182).
`probe i = true` means the `SELECT 1` round trip on attempt `i` succeeds.
`k` is the number of loop iterations still available and `i` the current
attempt index; a failed attempt that is not the last sleeps
`_connection_retry_delay` once and retries, the last failure re-raises.
Returns (attempts actually made, sleeps performed, probe succeeded?). -/
def testConnectionLoop (probe : Nat → Bool) : Nat → Nat → Nat × Nat × Bool
  | 0, _ => (0, 0, false)
  | k + 1, i =>
    if probe i then (1, 0, true)
    else if k = 0 then (1, 0, false)
    else
      let r := testConnectionLoop probe k (i + 1)
      (r.1 + 1, r.2.1 + 1, r.2.2)

/-- `DatabaseManager._test_connection` (`database.py` lines 164-182):
the retry loop run with `max_retries = self._connection_retry_attempts`. -/
def testConnection (probe : Nat → Bool) : Nat × Nat × Bool :=
  testConnectionLoop probe connectionRetryAttempts 0

/-- `DatabaseManager._cleanup` (`database.py` lines 289-301): dispose the
engine if present, then reset `_engine`, `_session_factory`, `_base` to
`None` and `_is_initialized` to `False`. -/
def DBManager.cleanup (m : DBManager) : DBManager :=
  { m with
    engine := none, sessionFactory := none, declBase := none,
    isInitialized := false,
    disposeCount := if m.engine.isSome then m.disposeCount + 1 else m.disposeCount }

/-- `DatabaseManager.close` (`database.py` lines 303-306): just `_cleanup`. -/
def DBManager.close (m : DBManager) : DBManager :=
  m.cleanup

/-- `DatabaseManager._initialize` (`database.py` lines 97-132): no-op when
already initialized; otherwise build engine, session factory and base, run
`_test_connection`, and either mark initialized or (on failure) `_cleanup`
and re-raise. The returned `Bool` is `true` when the failure propagates to
the caller. -/
def DBManager.initializeManager (m : DBManager) (probe : Nat → Bool) : DBManager × Bool :=
  if m.isInitialized then (m, false)
  else
    let gen := m.initCount + 1
    let m1 := { m with
      engine := some gen, sessionFactory := some gen, declBase := some gen,
      initCount := gen }
    if (testConnection probe).2.2 then
      ({ m1 with isInitialized := true }, false)
    else
      (m1.cleanup, true)

/-- The guard shared by the `engine` / `session_factory` / `base` properties
and by `get_session` (`database.py` lines 29-30, 38-39, 47-48, 186-187):
`if not self._is_initialized: self._initialize()`. -/
def DBManager.ensureInitialized (m : DBManager) (probe : Nat → Bool) : DBManager × Bool :=
  if m.isInitialized then (m, false) else m.initializeManager probe

/-- The `engine` property (`database.py` lines 26-33): ensure initialization,
then return `self._engine` or raise `RuntimeError`. `Except Unit Nat` is
`.error ()` when an exception propagates. -/
def DBManager.engineAccess (m : DBManager) (probe : Nat → Bool) :
    DBManager × Except Unit Nat :=
  let r := m.ensureInitialized probe
  if r.2 then (r.1, .error ())
  else
    match r.1.engine with
    | none => (r.1, .error ())
    | some e => (r.1, .ok e)

/-- The `session_factory` property (`database.py` lines 35-42), analogous. -/
def DBManager.sessionFactoryAccess (m : DBManager) (probe : Nat → Bool) :
    DBManager × Except Unit Nat :=
  let r := m.ensureInitialized probe
  if r.2 then (r.1, .error ())
  else
    match r.1.sessionFactory with
    | none => (r.1, .error ())
    | some f => (r.1, .ok f)

/-- The ways client code touches the manager: the `engine` and
`session_factory` properties, `get_session`, and scoped acquisition
(`get_session_context`, which calls `get_session`). All begin with the same
`if not self._is_initialized: self._initialize()` guard, which is their
only effect on the manager's state. -/
inductive Access where
  | engine
  | sessionFactory
  | getSession
  | acquire
  deriving DecidableEq, Repr

/-- State effect of one access: every access runs the ensure-initialized
guard; nothing else in `engine`/`session_factory`/`get_session` mutates the
manager. -/
def DBManager.accessStep (m : DBManager) (probe : Nat → Bool) (_ : Access) : DBManager :=
  (m.ensureInitialized probe).1

/-- Running a sequence of accesses against the manager. -/
def DBManager.accessSeq (m : DBManager) (probe : Nat → Bool) (as : List Access) : DBManager :=
  as.foldl (fun st a => st.accessStep probe a) m

/-! ## `get_session_context` (`database.py` lines 192-204) -/

/-- A method call made on a SQLAlchemy session. -/
inductive SessionOp where
  | commit
  | rollback
  | close
  deriving DecidableEq, Repr

/-- Trace semantics of `DatabaseManager.get_session_context`
(`database.py` lines 192-204). `bodyErr` is the exception raised by the
body of the `with` scope (`none` when the body completes normally) and
`commitErr` the exception raised by `session.commit()` when it runs.
Returns the session method calls in program order and the exception that
propagates out of the scope: normal body → `commit` then (in `finally`)
`close`; raising body → `rollback`, `close`, re-raise; a failing `commit`
is caught by the same `except`, so `rollback`, `close`, re-raise. -/
def getSessionContext (bodyErr commitErr : Option PyExc) :
    List SessionOp × Option PyExc :=
  match bodyErr with
  | some e => ([.rollback, .close], some e)
  | none =>
    match commitErr with
    | none => ([.commit, .close], none)
    | some e => ([.commit, .rollback, .close], some e)

/-! ## `health_check` (`database.py` lines 206-263) -/

/-- The separator `"://"` as characters, for the URL sanitization. -/
def urlSep : List Char := [':', '/', '/']

/-- The characters of `url.split("://")[0]`: the longest prefix of `url`
before the first occurrence of `"://"` (the whole string when there is
none), exactly Python's `str.split` first component. -/
def beforeSep : List Char → List Char
  | [] => []
  | c :: cs => if (c :: cs).take 3 = urlSep then [] else c :: beforeSep cs

/-- The sanitized connection target
`settings.database_url.split("://")[0] + "://***"`
(`database.py` lines 213, 254, 262). -/
def sanitizeDatabaseUrl (url : String) : String :=
  String.mk (beforeSep url.data) ++ "://***"

/-- The record returned by `health_check`. `responseTimeMs` is the wall-clock
probe latency, abstracted to an uninterpreted value supplied by the caller of
the model; `poolStatus` abstracts the best-effort pool statistics dictionary
(`database.py` lines 224-248), which the modelled claims do not inspect. -/
structure HealthReport where
  status : String
  error : Option String
  responseTimeMs : Option Nat
  poolStatus : Option String
  databaseUrl : String
  deriving DecidableEq, Repr

/-- `DatabaseManager.health_check` (`database.py` lines 206-263).
`engineIsSome` is whether `self._engine` is not `None`; `probeErr` is
`none` when the `SELECT 1` round trip succeeds and `some (str e)` when it
raises `e`; `latencyMs` and `poolInfo` stand for the measured latency and
collected pool statistics of a successful probe; `url` is
`settings.database_url`. The whole body is wrapped in `try/except`, so the
model is a total function: no exception escapes. -/
def healthCheck (engineIsSome : Bool) (probeErr : Option String)
    (latencyMs : Nat) (poolInfo : String) (url : String) : HealthReport :=
  if ¬ engineIsSome then
    { status := "unhealthy", error := some "Database engine not initialized",
      responseTimeMs := none, poolStatus := none,
      databaseUrl := sanitizeDatabaseUrl url }
  else
    match probeErr with
    | none =>
      { status := "healthy", error := none,
        responseTimeMs := some latencyMs, poolStatus := some poolInfo,
        databaseUrl := sanitizeDatabaseUrl url }
    | some e =>
      { status := "unhealthy", error := some e,
        responseTimeMs := none, poolStatus := none,
        databaseUrl := sanitizeDatabaseUrl url }

/-! ## `app/config/settings.py` : the configuration provider

Only the fields the verified claims consult are embedded; defaults are the
`Field(default=...)` values of `Settings`. The settings class has **no**
field for a slow-request threshold: the listing below is faithful to the
complete `Logging Configuration` / `Exception Logging` blocks of
`settings.py` (lines 56-83) as far as levels and sink toggles go. -/

/-- The logging-related configuration fields of `Settings`
(`settings.py` lines 56-83). -/
structure Settings where
  log_level : String := "INFO"
  log_console : Bool := true
  log_json : Bool := false
  log_exception : Bool := true
  log_exception_json : Bool := false
  log_exception_level : String := "ERROR"
  deriving DecidableEq, Repr

/-- The default `Settings()` instance (all defaults). -/
def defaultSettings : Settings := {}

/-! ## `app/utils/logger/logger_config.py` : sink thresholds -/

/-- Loguru's built-in severity numbers (`logger.level(name).no`):
TRACE 5, DEBUG 10, INFO 20, SUCCESS 25, WARNING 30, ERROR 40, CRITICAL 50.
An unknown name makes loguru raise at sink-registration time; the claims
only use the built-in names, and the model maps unknown names to `none`. -/
def loguruLevelNo (name : String) : Option Nat :=
  if name = "TRACE" then some 5
  else if name = "DEBUG" then some 10
  else if name = "INFO" then some 20
  else if name = "SUCCESS" then some 25
  else if name = "WARNING" then some 30
  else if name = "ERROR" then some 40
  else if name = "CRITICAL" then some 50
  else none

/-- Whether the primary console sink registered by
`LoggerConfig._setup_logger` (`logger_config.py` lines 80-104) accepts a
record emitted at level `lvl`: the sink exists when `log_console` is set,
and loguru delivers a record to a sink exactly when the record's severity
number is at least the sink's `level=` threshold (here
`self.settings.log_level`); this sink has no filter. -/
def consoleSinkAccepts (s : Settings) (lvl : String) : Bool :=
  s.log_console &&
    match loguruLevelNo lvl, loguruLevelNo s.log_level with
    | some n, some t => n ≥ t
    | _, _ => false

/-- Whether the exception sink registered by
`LoggerConfig._setup_exception_logging` (`logger_config.py` lines 168-205)
accepts a record emitted at level `lvl`: the sink exists when
`log_exception` is set; its `level=` parameter is
`self.settings.log_exception_level` and its `filter=` re-checks
`record["level"].no >= logger.level(self.settings.log_exception_level).no`
(lines 187 and 204, identically in the JSON and text branches), so delivery
requires the record's severity number to reach the independently configured
exception threshold. -/
def exceptionSinkAccepts (s : Settings) (lvl : String) : Bool :=
  s.log_exception &&
    match loguruLevelNo lvl, loguruLevelNo s.log_exception_level with
    | some n, some t => n ≥ t
    | _, _ => false

/-! ## `app/utils/logger/logger_config.py` : ambient request context -/

/-- The two `ContextVar`s of `logger_config.py` lines 12-13
(`request_id_var`, `user_id_var`). -/
structure Ctx where
  requestId : Option String
  userId : Option String
  deriving DecidableEq, Repr

/-- `LoggerUtils.set_request_context` (`logger_config.py` lines 268-273):
sets `request_id_var`; sets `user_id_var` only when a truthy `user_id` is
given (the middleware passes none). -/
def setRequestContext (ctx : Ctx) (requestId : String) (userId : Option String) : Ctx :=
  { requestId := some requestId,
    userId := match userId with
      | some u => some u
      | none => ctx.userId }

/-- `LoggerUtils.clear_request_context` (`logger_config.py` lines 275-279):
both context variables reset to `None`. -/
def clearRequestContext : Ctx :=
  { requestId := none, userId := none }

/-- What `CustomFormatter.format` (`logger_config.py` lines 44-46) attaches
as the `request_id` of a record emitted under ambient context `ctx`: the
current value of `request_id_var`, omitted when unset. A log emission made
after a request finishes carries exactly this value for the then-current
context. -/
def formatterRequestId (ctx : Ctx) : Option String :=
  ctx.requestId

/-! ## `app/utils/logger/middleware.py` : `LoggingMiddleware` -/

/-- An inbound HTTP request, reduced to the attributes `dispatch` reads for
the modelled claims. -/
structure Request where
  path : String
  method : String
  deriving DecidableEq, Repr

/-- A response from the downstream handler: status code and headers
(an insertion-ordered mapping, as in Starlette). -/
structure Response where
  statusCode : Nat
  headers : List (String × String)
  deriving DecidableEq, Repr

/-- `response.headers[name] = value`: replace the entry when the name is
present, else append. -/
def Response.setHeader (r : Response) (name value : String) : Response :=
  if (r.headers.map Prod.fst).contains name then
    { r with headers := r.headers.map fun p => if p.1 = name then (name, value) else p }
  else
    { r with headers := r.headers ++ [(name, value)] }

/-- One record emitted through loguru by the middleware, reduced to the
fields the claims inspect. `requestId` is the `request_id` put in `extra`;
`duration`, `errorType`, `errorMessage`, `statusCode` are the homonymous
`extra` entries when present. Durations are modelled as exact rationals in
seconds (the float comparisons of the source are order comparisons against
literals, which the rational order reflects). -/
structure LogRecord where
  message : String
  level : String
  requestId : Option String
  statusCode : Option Nat
  duration : Option ℚ
  errorType : Option String
  errorMessage : Option String
  deriving DecidableEq, Repr

/-- `self.excluded_paths` (`middleware.py` line 16). -/
def excludedPaths : List String := ["/health", "/metrics", "/favicon.ico"]

/-- Rendering of `f"{duration*1000:.2f}ms"` for the `X-Response-Time`
header; the decimal formatting is abstracted to `toString` of the exact
millisecond value. -/
def formatMs (duration : ℚ) : String :=
  toString (duration * 1000) ++ "ms"

/-- `LoggingMiddleware.dispatch` (`middleware.py` lines 19-120) as a trace
function. Inputs: the request; `freshId`, the `str(uuid.uuid4())` drawn at
line 24; the downstream handler's `outcome` (`.ok response` or
`.error e` when `call_next` raises); `duration`, the elapsed seconds
measured around the handler; `_s`, the settings object stored on the
middleware (never consulted by `dispatch` — every threshold in the source
is a literal); and the ambient context `ctx` before the request.
Output: the records emitted in order, the result (the response with the
performance headers added, or the re-raised exception), and the ambient
context after `dispatch` returns.

Excluded paths return `await call_next(request)` at line 22, before any
context, logging, headers or timing. Otherwise the context is set, one
"Request received" record is emitted, and then: on handler success one
"Request completed" record, the `X-Request-ID` / `X-Response-Time` headers,
and — only when `duration > 2.0` (line 90) — one "Slow request detected"
warning; on handler failure one "Request failed" record carrying
`type(e).__name__`, `str(e)` and the duration, and the exception re-raised
by a bare `raise`. The `finally` block clears the ambient context on both
paths. -/
def dispatch (_s : Settings) (req : Request) (freshId : String)
    (outcome : Except PyExc Response) (duration : ℚ) (ctx : Ctx) :
    List LogRecord × Except PyExc Response × Ctx :=
  if excludedPaths.contains req.path then
    ([], outcome, ctx)
  else
    let received : LogRecord :=
      { message := "Request received", level := "INFO",
        requestId := some freshId, statusCode := none, duration := none,
        errorType := none, errorMessage := none }
    match outcome with
    | .ok resp =>
      let completed : LogRecord :=
        { message := "Request completed", level := "INFO",
          requestId := some freshId, statusCode := some resp.statusCode,
          duration := some duration, errorType := none, errorMessage := none }
      let resp1 := (resp.setHeader "X-Request-ID" freshId).setHeader
        "X-Response-Time" (formatMs duration)
      let slow : List LogRecord :=
        if duration > 2 then
          [{ message := "Slow request detected", level := "WARNING",
             requestId := some freshId, statusCode := none,
             duration := some duration, errorType := none, errorMessage := none }]
        else []
      (received :: completed :: slow, .ok resp1, clearRequestContext)
    | .error e =>
      let failed : LogRecord :=
        { message := "Request failed", level := "ERROR",
          requestId := some freshId, statusCode := none,
          duration := some duration, errorType := some e.ty,
          errorMessage := some e.msg }
      ([received, failed], .error e, clearRequestContext)

/-- `PerformanceMiddleware` (`middleware.py` lines 151-193): thresholds set
in `__init__` as the literals `1.0` and `5.0`; emits one record when the
duration strictly exceeds one of them (the larger checked first). Like
`LoggingMiddleware`, it stores its settings object but never reads a
threshold from it. -/
def performanceDispatch (_s : Settings) (req : Request) (duration : ℚ) :
    List LogRecord :=
  if duration > 5 then
    [{ message := "Very slow request: " ++ req.method ++ " " ++ req.path,
       level := "WARNING", requestId := none, statusCode := none,
       duration := some duration, errorType := none, errorMessage := none }]
  else if duration > 1 then
    [{ message := "Slow request: " ++ req.method ++ " " ++ req.path,
       level := "INFO", requestId := none, statusCode := none,
       duration := some duration, errorType := none, errorMessage := none }]
  else []

/-! ## Helper lemmas -/

/-- Closed form of the three-attempt retry loop of `_test_connection`. -/
theorem testConnection_spec (probe : Nat → Bool) :
    testConnection probe =
      if probe 0 then (1, 0, true)
      else if probe 1 then (2, 1, true)
      else if probe 2 then (3, 2, true)
      else (3, 2, false) := by
  cases h0 : probe 0 <;> cases h1 : probe 1 <;> cases h2 : probe 2 <;>
    simp [testConnection, testConnectionLoop, connectionRetryAttempts, h0, h1, h2]

/-- A probe succeeds within the three attempts iff one of the first three
attempts succeeds. -/
theorem exists_probe_lt_three (probe : Nat → Bool) :
    (∃ i < 3, probe i = true) ↔ (probe 0 || probe 1 || probe 2) = true := by
  constructor
  · rintro ⟨i, hi, hp⟩
    interval_cases i <;> simp_all
  · intro h
    simp only [Bool.or_eq_true] at h
    rcases h with (h | h) | h
    · exact ⟨0, by norm_num, h⟩
    · exact ⟨1, by norm_num, h⟩
    · exact ⟨2, by norm_num, h⟩

/-- Once the manager is initialized, any sequence of accesses leaves it
unchanged: the ensure-initialized guard short-circuits. -/
theorem accessSeq_of_initialized (m : DBManager) (probe : Nat → Bool)
    (hm : m.isInitialized = true) (as : List Access) :
    DBManager.accessSeq m probe as = m := by
  induction as with
  | nil => rfl
  | cons a as ih =>
    have hstep : m.accessStep probe a = m := by
      simp [DBManager.accessStep, DBManager.ensureInitialized, hm]
    show DBManager.accessSeq (m.accessStep probe a) probe as = m
    rw [hstep, ih]

/-- `str.split("://")[0]` recovers the scheme of a URL whose scheme
contains no colon. -/
theorem beforeSep_append (scheme rest : List Char) (h : ':' ∉ scheme) :
    beforeSep (scheme ++ urlSep ++ rest) = scheme := by
  induction scheme with
  | nil => simp [beforeSep, urlSep, List.take]
  | cons c cs ih =>
    have hc : c ≠ ':' := fun hce => h (hce ▸ List.mem_cons_self c cs)
    have htail : ':' ∉ cs := fun hm => h (List.mem_cons_of_mem c hm)
    have hcond : (c :: (cs ++ urlSep ++ rest)).take 3 ≠ urlSep := by
      rw [List.take_succ_cons]
      simp only [urlSep]
      intro heq
      exact hc (List.cons_eq_cons.mp heq).1
    show beforeSep (c :: (cs ++ urlSep ++ rest)) = c :: cs
    simp only [beforeSep]
    rw [if_neg hcond, ih htail]

/-! ## Claims -/

/-- C1: for every unit of work obtained through `get_session_context`, a
normally completing body leads to `session.commit()`; a raising body leads
to `session.rollback()` and the exception propagating unchanged; and in
every case `session.close()` is invoked exactly once, as the last session
call on exit. -/
theorem getSessionContext_scoped_discipline (bodyErr commitErr : Option PyExc) :
    (bodyErr = none → SessionOp.commit ∈ (getSessionContext bodyErr commitErr).1) ∧
    (∀ e, bodyErr = some e →
      SessionOp.rollback ∈ (getSessionContext bodyErr commitErr).1 ∧
      (getSessionContext bodyErr commitErr).2 = some e) ∧
    (getSessionContext bodyErr commitErr).1.count SessionOp.close = 1 ∧
    (getSessionContext bodyErr commitErr).1.getLast? = some SessionOp.close := by
  cases bodyErr <;> cases commitErr <;>
    simp [getSessionContext, List.count_cons, List.getLast?]

/-- Witness for C1 at a raising body and at a normal body. -/
theorem getSessionContext_scoped_discipline_witness :
    SessionOp.rollback ∈ (getSessionContext (some ⟨"ValueError", "boom"⟩) none).1 ∧
    (getSessionContext (some ⟨"ValueError", "boom"⟩) none).2 =
      some ⟨"ValueError", "boom"⟩ ∧
    SessionOp.commit ∈ (getSessionContext none none).1 ∧
    (getSessionContext none none).1.count SessionOp.close = 1 :=
  have h1 := getSessionContext_scoped_discipline (some ⟨"ValueError", "boom"⟩) none
  have h2 := getSessionContext_scoped_discipline none none
  ⟨(h1.2.1 _ rfl).1, (h1.2.1 _ rfl).2, h2.1 rfl, h2.2.2.1⟩

/-- C7: `close` disposes the engine when one is present, resets the
lifecycle to the uninitialized shape, and is idempotent; closing a manager
that was never initialized is the identity. -/
theorem close_resets_and_idempotent (m : DBManager) :
    m.close.engine = none ∧ m.close.sessionFactory = none ∧
    m.close.declBase = none ∧ m.close.isInitialized = false ∧
    (m.engine.isSome = true → m.close.disposeCount = m.disposeCount + 1) ∧
    m.close.close = m.close ∧
    DBManager.new.close = DBManager.new := by
  cases hm : m.engine <;>
    simp [DBManager.close, DBManager.cleanup, DBManager.new, hm]

/-- Witness for C7 at an initialized manager holding an engine. -/
theorem close_resets_and_idempotent_witness :
    (DBManager.mk (some 1) (some 1) (some 1) true 1 0).close.disposeCount = 0 + 1 ∧
    (DBManager.mk (some 1) (some 1) (some 1) true 1 0).close.isInitialized = false :=
  have h := close_resets_and_idempotent (DBManager.mk (some 1) (some 1) (some 1) true 1 0)
  ⟨h.2.2.2.2.1 rfl, h.2.2.2.1⟩

/-- C10: for the excluded paths `/health`, `/metrics`, `/favicon.ico`,
`dispatch` forwards straight to the downstream handler: no record is
emitted, the handler's outcome (response headers included) is returned
untouched, and the ambient context is neither bound nor cleared. -/
theorem dispatch_excluded_paths (s : Settings) (req : Request)
    (freshId : String) (outcome : Except PyExc Response) (duration : ℚ)
    (ctx : Ctx) (h : excludedPaths.contains req.path = true) :
    dispatch s req freshId outcome duration ctx = ([], outcome, ctx) := by
  unfold dispatch
  rw [h]
  simp

/-- Witness for C10 at `/health`. -/
theorem dispatch_excluded_paths_witness :
    dispatch defaultSettings ⟨"/health", "GET"⟩ "rid-1"
        (.ok ⟨200, [("content-type", "application/json")]⟩) 1
        ⟨some "old", none⟩ =
      ([], .ok ⟨200, [("content-type", "application/json")]⟩,
        ⟨some "old", none⟩) :=
  dispatch_excluded_paths defaultSettings ⟨"/health", "GET"⟩ "rid-1"
    (.ok ⟨200, [("content-type", "application/json")]⟩) 1
    ⟨some "old", none⟩ (by decide)

/-- C3: the connectivity probe runs at most 3 times with one fixed delay
between consecutive attempts (sleeps + 1 = attempts); the probe succeeds
iff one of the three attempts does; a success lets initialization complete,
and exhaustion of all 3 attempts disposes the partially constructed engine,
resets engine, session factory and the initialized flag, and propagates the
failure. -/
theorem initialize_retry_exhaustion (m : DBManager) (probe : Nat → Bool)
    (hm : m.isInitialized = false) :
    (testConnection probe).1 ≤ 3 ∧
    (testConnection probe).2.1 + 1 = (testConnection probe).1 ∧
    ((testConnection probe).2.2 = true ↔ ∃ i < 3, probe i = true) ∧
    ((∃ i < 3, probe i = true) →
      (m.initializeManager probe).2 = false ∧
      (m.initializeManager probe).1.isInitialized = true) ∧
    ((∀ i < 3, probe i = false) →
      (m.initializeManager probe).2 = true ∧
      (m.initializeManager probe).1.engine = none ∧
      (m.initializeManager probe).1.sessionFactory = none ∧
      (m.initializeManager probe).1.isInitialized = false ∧
      (m.initializeManager probe).1.disposeCount = m.disposeCount + 1) := by
  have hexp := exists_probe_lt_three probe
  have hall : (∀ i < 3, probe i = false) → probe 0 = false ∧ probe 1 = false ∧
      probe 2 = false := fun hf =>
    ⟨hf 0 (by norm_num), hf 1 (by norm_num), hf 2 (by norm_num)⟩
  rw [testConnection_spec probe]
  cases h0 : probe 0 <;> cases h1 : probe 1 <;> cases h2 : probe 2 <;>
    simp_all [DBManager.initializeManager, DBManager.cleanup, testConnection_spec]

/-- Witness for C3: exhaustion at an all-failing probe, success at an
all-succeeding one, both from a fresh manager. -/
theorem initialize_retry_exhaustion_witness :
    (testConnection (fun _ => false)).1 ≤ 3 ∧
    (DBManager.new.initializeManager (fun _ => false)).2 = true ∧
    (DBManager.new.initializeManager (fun _ => false)).1.engine = none ∧
    (DBManager.new.initializeManager (fun _ => false)).1.disposeCount = 0 + 1 ∧
    (DBManager.new.initializeManager (fun _ => true)).1.isInitialized = true :=
  have hf := initialize_retry_exhaustion DBManager.new (fun _ => false) rfl
  have ht := initialize_retry_exhaustion DBManager.new (fun _ => true) rfl
  have hexh := hf.2.2.2.2 (fun _ _ => rfl)
  ⟨hf.1, hexh.1, hexh.2.1, hexh.2.2.2.2,
    (ht.2.2.2.1 ⟨0, by norm_num, rfl⟩).2⟩

/-- C4: starting from a fresh manager, with a probe that succeeds within
the retry budget, the first access constructs engine and session factory
(generation 1) and any sequence of later accesses leaves the manager
unchanged — construction and probe run exactly once — with the `engine`
and `session_factory` properties returning the already-constructed
generation-1 objects. -/
theorem initialization_runs_exactly_once (probe : Nat → Bool)
    (hp : (probe 0 || probe 1 || probe 2) = true) :
    ((DBManager.new.initializeManager probe).1.isInitialized = true ∧
      (DBManager.new.initializeManager probe).1.initCount = 1 ∧
      (DBManager.new.initializeManager probe).1.engine = some 1 ∧
      (DBManager.new.initializeManager probe).1.sessionFactory = some 1) ∧
    (∀ a : Access,
      DBManager.accessSeq DBManager.new probe [a] =
        (DBManager.new.initializeManager probe).1) ∧
    (∀ as : List Access,
      DBManager.accessSeq (DBManager.new.initializeManager probe).1 probe as =
        (DBManager.new.initializeManager probe).1) ∧
    (DBManager.new.initializeManager probe).1.engineAccess probe =
      ((DBManager.new.initializeManager probe).1, .ok 1) ∧
    (DBManager.new.initializeManager probe).1.sessionFactoryAccess probe =
      ((DBManager.new.initializeManager probe).1, .ok 1) := by
  have hok : (testConnection probe).2.2 = true := by
    rw [testConnection_spec probe]
    cases h0 : probe 0 <;> cases h1 : probe 1 <;> cases h2 : probe 2 <;>
      simp_all
  have hstate : (DBManager.new.initializeManager probe).1 =
      { engine := some 1, sessionFactory := some 1, declBase := some 1,
        isInitialized := true, initCount := 1, disposeCount := 0 } := by
    simp [DBManager.initializeManager, DBManager.new, hok]
  refine ⟨by rw [hstate]; exact ⟨rfl, rfl, rfl, rfl⟩, ?_, ?_, ?_, ?_⟩
  · intro a
    show DBManager.accessSeq (DBManager.new.accessStep probe a) probe [] = _
    simp [DBManager.accessStep, DBManager.ensureInitialized, DBManager.new,
      DBManager.accessSeq]
  · intro as
    exact accessSeq_of_initialized _ probe (by rw [hstate]) as
  · rw [hstate]
    simp [DBManager.engineAccess, DBManager.ensureInitialized]
  · rw [hstate]
    simp [DBManager.sessionFactoryAccess, DBManager.ensureInitialized]

/-- Witness for C4 at an always-succeeding probe and a two-access
sequence. -/
theorem initialization_runs_exactly_once_witness :
    (DBManager.new.initializeManager (fun _ => true)).1.initCount = 1 ∧
    DBManager.accessSeq (DBManager.new.initializeManager (fun _ => true)).1
        (fun _ => true) [Access.engine, Access.getSession] =
      (DBManager.new.initializeManager (fun _ => true)).1 ∧
    (DBManager.new.initializeManager (fun _ => true)).1.engineAccess (fun _ => true) =
      ((DBManager.new.initializeManager (fun _ => true)).1, .ok 1) :=
  have h := initialization_runs_exactly_once (fun _ => true) rfl
  ⟨h.1.2.1, h.2.2.1 [Access.engine, Access.getSession], h.2.2.2.1⟩

/-- C5: for every instrumented (non-excluded) request, every emitted record
— the "received" one and the corresponding "completed" or "failed" one —
carries the identical freshly generated correlation identifier; the
ambient context is cleared unconditionally when `dispatch` returns, whether
the handler succeeded or raised; and a log emission made afterwards picks
up no leftover correlation identifier from it. -/
theorem dispatch_correlation_roundtrip (s : Settings) (req : Request)
    (freshId : String) (outcome : Except PyExc Response) (duration : ℚ)
    (ctx : Ctx) (h : excludedPaths.contains req.path = false) :
    (∀ r ∈ (dispatch s req freshId outcome duration ctx).1,
      r.requestId = some freshId) ∧
    ((dispatch s req freshId outcome duration ctx).1.map
        LogRecord.message).head? = some "Request received" ∧
    (∀ resp, outcome = .ok resp →
      "Request completed" ∈ ((dispatch s req freshId outcome duration ctx).1.map
        LogRecord.message)) ∧
    (∀ e, outcome = .error e →
      "Request failed" ∈ ((dispatch s req freshId outcome duration ctx).1.map
        LogRecord.message)) ∧
    (dispatch s req freshId outcome duration ctx).2.2 = clearRequestContext ∧
    formatterRequestId (dispatch s req freshId outcome duration ctx).2.2 = none := by
  unfold dispatch
  rw [h]
  cases outcome <;>
    by_cases hd : duration > 2 <;>
      simp_all [formatterRequestId, clearRequestContext]

/-- Witness for C5: a successful slow request and a failing request on a
non-excluded path. -/
theorem dispatch_correlation_roundtrip_witness :
    (∀ r ∈ (dispatch defaultSettings ⟨"/users", "GET"⟩ "rid-7"
        (.ok ⟨200, []⟩) 3 ⟨some "stale", some "u"⟩).1,
      r.requestId = some "rid-7") ∧
    (dispatch defaultSettings ⟨"/users", "GET"⟩ "rid-7"
        (.ok ⟨200, []⟩) 3 ⟨some "stale", some "u"⟩).2.2 = clearRequestContext ∧
    "Request failed" ∈ ((dispatch defaultSettings ⟨"/users", "GET"⟩ "rid-7"
        (.error ⟨"ValueError", "boom"⟩) 1 ⟨none, none⟩).1.map
      LogRecord.message) :=
  have h1 := dispatch_correlation_roundtrip defaultSettings ⟨"/users", "GET"⟩
    "rid-7" (.ok ⟨200, []⟩) 3 ⟨some "stale", some "u"⟩ (by decide)
  have h2 := dispatch_correlation_roundtrip defaultSettings ⟨"/users", "GET"⟩
    "rid-7" (.error ⟨"ValueError", "boom"⟩) 1 ⟨none, none⟩ (by decide)
  ⟨h1.1, h1.2.2.2.2.1, h2.2.2.2.1 ⟨"ValueError", "boom"⟩ rfl⟩

/-- C6: when the downstream handler raises, `dispatch` emits exactly one
"Request failed" record, at ERROR level, carrying the error's type name,
its message and the elapsed duration, and then re-raises the original
exception value unchanged. -/
theorem dispatch_failure_reraises (s : Settings) (req : Request)
    (freshId : String) (e : PyExc) (duration : ℚ) (ctx : Ctx)
    (h : excludedPaths.contains req.path = false) :
    ((dispatch s req freshId (.error e) duration ctx).1.filter
      (fun r => r.message = "Request failed")).length = 1 ∧
    (∃ r ∈ (dispatch s req freshId (.error e) duration ctx).1,
      r.message = "Request failed" ∧ r.level = "ERROR" ∧
      r.errorType = some e.ty ∧ r.errorMessage = some e.msg ∧
      r.duration = some duration) ∧
    (dispatch s req freshId (.error e) duration ctx).2.1 = .error e := by
  unfold dispatch
  rw [h]
  exact ⟨by simp,
    ⟨{ message := "Request failed", level := "ERROR",
       requestId := some freshId, statusCode := none,
       duration := some duration, errorType := some e.ty,
       errorMessage := some e.msg }, by simp, rfl, rfl, rfl, rfl, rfl⟩, rfl⟩

/-- Witness for C6 at a concrete failing request. -/
theorem dispatch_failure_reraises_witness :
    ((dispatch defaultSettings ⟨"/users", "POST"⟩ "rid-9"
        (.error ⟨"KeyError", "id"⟩) 1 ⟨none, none⟩).1.filter
      (fun r => r.message = "Request failed")).length = 1 ∧
    (dispatch defaultSettings ⟨"/users", "POST"⟩ "rid-9"
        (.error ⟨"KeyError", "id"⟩) 1 ⟨none, none⟩).2.1 =
      .error ⟨"KeyError", "id"⟩ :=
  have h := dispatch_failure_reraises defaultSettings ⟨"/users", "POST"⟩
    "rid-9" ⟨"KeyError", "id"⟩ 1 ⟨none, none⟩ (by decide)
  ⟨h.1, h.2.2⟩

/-- C8: with the exception sink enabled, an INFO-threshold primary sink
accepts an INFO record while an ERROR-threshold exception sink rejects it,
and both accept an ERROR record; in general the exception sink accepts a
record iff the record's severity number is at least the independently
configured exception-level threshold. -/
theorem exception_sink_threshold (s : Settings)
    (he : s.log_exception = true) :
    (s.log_console = true → s.log_level = "INFO" →
      s.log_exception_level = "ERROR" →
      consoleSinkAccepts s "INFO" = true ∧
      exceptionSinkAccepts s "INFO" = false ∧
      consoleSinkAccepts s "ERROR" = true ∧
      exceptionSinkAccepts s "ERROR" = true) ∧
    (∀ lvl n t, loguruLevelNo lvl = some n →
      loguruLevelNo s.log_exception_level = some t →
      (exceptionSinkAccepts s lvl = true ↔ t ≤ n)) := by
  constructor
  · intro hc hl hx
    simp [consoleSinkAccepts, exceptionSinkAccepts, loguruLevelNo, hc, hl,
      hx, he]
  · intro lvl n t hn ht
    simp [exceptionSinkAccepts, hn, ht, he]

/-- Witness for C8 at the default settings (primary INFO, exception sink
ERROR, both sinks enabled). -/
theorem exception_sink_threshold_witness :
    (consoleSinkAccepts defaultSettings "INFO" = true ∧
      exceptionSinkAccepts defaultSettings "INFO" = false ∧
      consoleSinkAccepts defaultSettings "ERROR" = true ∧
      exceptionSinkAccepts defaultSettings "ERROR" = true) ∧
    (exceptionSinkAccepts defaultSettings "WARNING" = true ↔ 40 ≤ 30) :=
  have h := exception_sink_threshold defaultSettings rfl
  ⟨h.1 rfl rfl rfl, h.2 "WARNING" 30 40 (by decide) (by decide)⟩

/-- C9 counterexample: the slow-request threshold is not configurable
through the configuration provider. Two distinct configurations yield
byte-identical instrumentation; the warning fires at 3 s and not at 2 s
under both, governed by the literal `2.0` in the middleware (the `Settings`
class has no slow-threshold field at all). -/
theorem slow_threshold_not_configurable :
    defaultSettings ≠
      ({ log_level := "WARNING", log_exception_level := "CRITICAL" } : Settings) ∧
    dispatch defaultSettings ⟨"/users", "GET"⟩ "rid" (.ok ⟨200, []⟩) 3
        clearRequestContext =
      dispatch { log_level := "WARNING", log_exception_level := "CRITICAL" }
        ⟨"/users", "GET"⟩ "rid" (.ok ⟨200, []⟩) 3 clearRequestContext ∧
    ((dispatch defaultSettings ⟨"/users", "GET"⟩ "rid" (.ok ⟨200, []⟩) 3
        clearRequestContext).1.filter
      (fun r => r.message = "Slow request detected")).length = 1 ∧
    ((dispatch defaultSettings ⟨"/users", "GET"⟩ "rid" (.ok ⟨200, []⟩) 2
        clearRequestContext).1.filter
      (fun r => r.message = "Slow request detected")).length = 0 := by
  refine ⟨by decide, rfl, ?_, ?_⟩ <;> decide

/-- C9 (amended): the "Slow request detected" warning is emitted, in
addition to the "Request completed" record, exactly when the elapsed
duration exceeds the fixed literal threshold of 2.0 seconds; the decision
is independent of the configuration provider, and the separate performance
middleware likewise uses fixed literal thresholds. -/
theorem dispatch_slow_warning_fixed_threshold (s : Settings) (req : Request)
    (freshId : String) (resp : Response) (duration : ℚ) (ctx : Ctx)
    (h : excludedPaths.contains req.path = false) :
    (((dispatch s req freshId (.ok resp) duration ctx).1.filter
        (fun r => r.message = "Slow request detected")).length = 1 ↔
      duration > 2) ∧
    (((dispatch s req freshId (.ok resp) duration ctx).1.filter
        (fun r => r.message = "Slow request detected")).length = 0 ↔
      ¬ duration > 2) ∧
    "Request completed" ∈ ((dispatch s req freshId (.ok resp) duration
        ctx).1.map LogRecord.message) ∧
    (∀ s2 : Settings, dispatch s2 req freshId (.ok resp) duration ctx =
      dispatch s req freshId (.ok resp) duration ctx) ∧
    (∀ s2 : Settings, performanceDispatch s2 req duration =
      performanceDispatch s req duration) := by
  unfold dispatch
  rw [h]
  by_cases hd : duration > 2 <;>
    simp [hd, performanceDispatch]

/-- Witness for the amended C9: at 3 s the warning is emitted, at 2 s it is
not. -/
theorem dispatch_slow_warning_fixed_threshold_witness :
    ((dispatch defaultSettings ⟨"/items", "GET"⟩ "rid-3" (.ok ⟨200, []⟩) 3
        ⟨none, none⟩).1.filter
      (fun r => r.message = "Slow request detected")).length = 1 ∧
    ((dispatch defaultSettings ⟨"/items", "GET"⟩ "rid-3" (.ok ⟨200, []⟩) 2
        ⟨none, none⟩).1.filter
      (fun r => r.message = "Slow request detected")).length = 0 :=
  have h3 := dispatch_slow_warning_fixed_threshold defaultSettings
    ⟨"/items", "GET"⟩ "rid-3" ⟨200, []⟩ 3 ⟨none, none⟩ (by decide)
  have h2 := dispatch_slow_warning_fixed_threshold defaultSettings
    ⟨"/items", "GET"⟩ "rid-3" ⟨200, []⟩ 2 ⟨none, none⟩ (by decide)
  ⟨h3.1.mpr (by decide), h2.2.1.mpr (by decide)⟩

/-- C2 counterexample: with the engine present and a probe failure whose
`str(e)` rendering is empty, `health_check` reports `error = ""` — an empty
reason string; and for a database URL containing no `"://"` the reported
target is the whole URL followed by `"://***"`, so credentials in such a
URL do appear. -/
theorem healthCheck_reason_counterexample :
    (healthCheck true (some "") 0 "" "sqlite:///./auth.db").status =
      "unhealthy" ∧
    (healthCheck true (some "") 0 "" "sqlite:///./auth.db").error = some "" ∧
    sanitizeDatabaseUrl "user:pw@host" = "user:pw@host://***" := by
  refine ⟨rfl, rfl, ?_⟩
  decide

/-- C2 (amended): `health_check` is total (never raises) and always reports
status "healthy" or "unhealthy"; an uninitialized engine yields "unhealthy"
with the fixed non-empty reason "Database engine not initialized"; a failed
probe yields "unhealthy" with the exception's rendering as reason — which
is non-empty exactly when that rendering is; and for URLs of the shape
`scheme://rest` with a colon-free scheme the reported target is
`scheme://***`, so credentials in well-formed URLs never appear. -/
theorem healthCheck_amended (engineIsSome : Bool) (probeErr : Option String)
    (latencyMs : Nat) (poolInfo : String) (url : String) :
    ((healthCheck engineIsSome probeErr latencyMs poolInfo url).status =
        "healthy" ∨
      (healthCheck engineIsSome probeErr latencyMs poolInfo url).status =
        "unhealthy") ∧
    (engineIsSome = false →
      (healthCheck engineIsSome probeErr latencyMs poolInfo url).status =
        "unhealthy" ∧
      (healthCheck engineIsSome probeErr latencyMs poolInfo url).error =
        some "Database engine not initialized") ∧
    (∀ e, engineIsSome = true → probeErr = some e →
      (healthCheck engineIsSome probeErr latencyMs poolInfo url).status =
        "unhealthy" ∧
      (healthCheck engineIsSome probeErr latencyMs poolInfo url).error =
        some e) ∧
    (engineIsSome = true → probeErr = none →
      (healthCheck engineIsSome probeErr latencyMs poolInfo url).status =
        "healthy") ∧
    (healthCheck engineIsSome probeErr latencyMs poolInfo url).databaseUrl =
      sanitizeDatabaseUrl url ∧
    (∀ scheme rest : List Char, ':' ∉ scheme →
      sanitizeDatabaseUrl (String.mk (scheme ++ urlSep ++ rest)) =
        String.mk scheme ++ "://***") := by
  refine ⟨?_, ?_, ?_, ?_, ?_, ?_⟩
  · cases engineIsSome <;> cases probeErr <;> simp [healthCheck]
  · intro he
    subst he
    simp [healthCheck]
  · intro e he hp
    subst he
    subst hp
    simp [healthCheck]
  · intro he hp
    subst he
    subst hp
    simp [healthCheck]
  · cases engineIsSome <;> cases probeErr <;> simp [healthCheck]
  · intro scheme rest hs
    show String.mk (beforeSep (scheme ++ urlSep ++ rest)) ++ "://***" = _
    rw [beforeSep_append scheme rest hs]

/-- Witness for the amended C2: uninitialized engine, failing probe and
healthy probe at concrete inputs, plus sanitization of a concrete
credential-bearing URL. -/
theorem healthCheck_amended_witness :
    (healthCheck false none 0 "" "sqlite:///./auth.db").error =
      some "Database engine not initialized" ∧
    (healthCheck true (some "connection refused") 0 ""
        "postgresql://u:p@h/db").error = some "connection refused" ∧
    (healthCheck true none 12 "QueuePool" "postgresql://u:p@h/db").status =
      "healthy" ∧
    sanitizeDatabaseUrl
        (String.mk (['p', 'g'] ++ urlSep ++ ['u', ':', 'p', '@', 'h'])) =
      String.mk ['p', 'g'] ++ "://***" :=
  have h1 := healthCheck_amended false none 0 "" "sqlite:///./auth.db"
  have h2 := healthCheck_amended true (some "connection refused") 0 ""
    "postgresql://u:p@h/db"
  have h3 := healthCheck_amended true none 12 "QueuePool"
    "postgresql://u:p@h/db"
  ⟨(h1.2.1 rfl).2, (h2.2.2.1 "connection refused" rfl rfl).2,
    h3.2.2.2.1 rfl rfl,
    h1.2.2.2.2.2 ['p', 'g'] ['u', ':', 'p', '@', 'h'] (by decide)⟩

end AuthPython
